import Mathlib

/-!
Shallow embedding of `mmvisual` (src/src-tauri/src/lib.rs): the device
registry, the tracking-loop merge/log step (`mmrun`), the Tauri command
handlers (`mmstart`, `read_devices`, `parse_map`, `start_record`,
`stop_record`, `send_log`) and the configuration parser (`parse_ini`).

Machine floats (`f64`) are modelled as `Rat`; raw millimetre coordinates
(`i32`) as `Int`; `u8`/`u32` as `Nat`; `SystemTime` as milliseconds since
the Unix epoch (`Nat`); the filesystem as an association list from path to
byte list; an INI document (the `ini` crate's `Ini`) as an ordered list of
named sections, each an ordered key/value list.  `anyhow` errors are their
message strings; external library parse errors (`u32`/`u8`/`f64` `parse`,
`fs::read`) carry the messages the Rust standard library produces.
-/

/-- One tracked beacon/tag record (struct `TRDevice` in lib.rs). -/
structure TRDevice where
  address : Nat
  is_hedge : Bool
  x : Rat
  y : Rat
  q : Nat
deriving DecidableEq, Repr

/-- Floorplan descriptor (struct `TRPlan` in lib.rs). -/
structure TRPlan where
  x : Rat
  y : Rat
  scale_pixels_per_m : Rat
  data : List Nat
  ext : String
deriving DecidableEq, Repr

/-- Shared application state (struct `AppState` in lib.rs); the
`Option<File>` log handle is modelled by its presence flag, the file's
contents live in `World.logfile`. -/
structure AppState where
  is_mmrunning : Bool
  devices : List TRDevice
  savefile : Bool
deriving DecidableEq, Repr

/-- The app state together with the contents of `log.csv` (each entry one
`write` call's string). -/
structure World where
  state : AppState
  logfile : List String
deriving DecidableEq, Repr

/-- Device types of the `marvelmind` crate that matter to lib.rs: the four
hedgehog (mobile-tag) variants matched by `matches!`, and a catch-all for
every other (fixed) type. -/
inductive DeviceType where
  | SuperBeaconHedgedog
  | BeaconHwV45Hedgehog
  | BeaconHwV49Hedgehog
  | IndustrialSuperBeaconHedgedog
  | other (code : Nat)
deriving DecidableEq, Repr

/-- The `matches!(device.dtype(), ... Hedgedog | ... Hedgehog ...)` test
used both at seeding (lib.rs:71) and in the log filter (lib.rs:108). -/
def DeviceType.is_hedge_type : DeviceType → Bool
  | .SuperBeaconHedgedog => true
  | .BeaconHwV45Hedgehog => true
  | .BeaconHwV49Hedgehog => true
  | .IndustrialSuperBeaconHedgedog => true
  | .other _ => false

/-- One device sample as reported by the `marvelmind` driver: address,
type, raw millimetre coordinates, quality, hardware timestamp (ms since
Unix epoch). -/
structure MMDevice where
  address : Nat
  dtype : DeviceType
  x : Int
  y : Int
  z : Int
  q : Nat
  update_time : Nat
deriving DecidableEq, Repr

/-! ## External library models: filesystem, INI documents, numeric parsing -/

/-- Filesystem model: association list of path → file bytes. -/
abbrev FS := List (String × List Nat)

/-- `std::fs::read`: the bytes at `path`, or `none` when the file is
missing. -/
def fsRead (fs : FS) (path : String) : Option (List Nat) :=
  (fs.find? (fun e => e.1 == path)).map (·.2)

/-- An INI section: key/value pairs in file order (the `ini` crate keeps
insertion order and iteration yields it). -/
abbrev Sect := List (String × String)

/-- An INI document: named sections in file order. -/
abbrev IniDoc := List (String × Sect)

/-- `Ini::section(Some(name))`: the first section with that exact name. -/
def iniSection (ini : IniDoc) (name : String) : Option Sect :=
  (ini.find? (fun s => s.1 == name)).map (·.2)

/-- `Properties::get(key)`: the first value stored under `key`. -/
def sectGet (s : Sect) (key : String) : Option String :=
  (s.find? (fun kv => kv.1 == key)).map (·.2)

/-- Value of a non-empty all-digit character list. -/
def digitsToNat (cs : List Char) : Nat :=
  cs.foldl (fun n c => n * 10 + (c.toNat - 48)) 0

/-- Rust `str::parse::<u32>()`: an optional `+` sign followed by one or
more ASCII digits, value below `2^32`. -/
def parse_u32 (s : String) : Option Nat :=
  let cs := match s.data with
    | '+' :: r => r
    | r => r
  if cs.isEmpty then none
  else if cs.all (·.isDigit) then
    let n := digitsToNat cs
    if n < 2 ^ 32 then some n else none
  else none

/-- Rust `str::parse::<u8>()`: like `parse_u32` with bound `2^8`. -/
def parse_u8 (s : String) : Option Nat :=
  let cs := match s.data with
    | '+' :: r => r
    | r => r
  if cs.isEmpty then none
  else if cs.all (·.isDigit) then
    let n := digitsToNat cs
    if n < 2 ^ 8 then some n else none
  else none

/-- Fractional value of a digit list read after the decimal point. -/
def fracToRat (cs : List Char) : Rat :=
  (digitsToNat cs : Rat) / ((10 : Rat) ^ cs.length)

/-- Rust `str::parse::<f64>()` restricted to the plain decimal literals
configuration files contain: optional sign, digits, optional `.` and
fraction digits, at least one digit overall (exponent, `inf` and `nan`
forms are out of the modelled fragment). -/
def parse_f64 (s : String) : Option Rat :=
  let (sign, cs) : Int × List Char := match s.data with
    | '-' :: r => (-1, r)
    | '+' :: r => (1, r)
    | r => (1, r)
  let intPart := cs.takeWhile (fun c => c ≠ '.')
  let rest := cs.dropWhile (fun c => c ≠ '.')
  if intPart.all (·.isDigit) then
    match rest with
    | [] =>
      if intPart.isEmpty then none
      else some ((sign : Rat) * (digitsToNat intPart : Rat))
    | _ :: frac =>
      if frac.all (·.isDigit) && !(intPart.isEmpty && frac.isEmpty) then
        some ((sign : Rat) * ((digitsToNat intPart : Rat) + fracToRat frac))
      else none
  else none

/-- Rust `str::starts_with`, modelled as a character-prefix test. -/
def strStartsWith (s pre : String) : Bool :=
  pre.data.isPrefixOf s.data

/-- Split a character list at every occurrence of `c` (helper for the
`Path` model). -/
def splitOnChar (c : Char) : List Char → List (List Char)
  | [] => [[]]
  | x :: xs =>
    match splitOnChar c xs with
    | [] => [[]]
    | h :: t => if x == c then [] :: h :: t else (x :: h) :: t

/-- Rust `Path::extension()` on a path string: the part of the file name
after its last dot; `none` when there is no dot, or the only dot leads the
file name. -/
def pathExtension (p : String) : Option String :=
  let name := (splitOnChar '/' p.data).getLastD p.data
  match splitOnChar '.' name with
  | [] => none
  | [_] => none
  | [] :: [_] => none
  | parts => parts.getLast?.map (fun cs => String.mk cs)

/-- Turn an optional value into `Except`, with `anyhow::Context`-style
message on `none` (models `.context(msg)?` and `parse()?`). -/
def exceptOfOption (o : Option α) (msg : String) : Except String α :=
  match o with
  | some a => Except.ok a
  | none => Except.error msg

/-! ## Configuration parser (`parse_ini`, lib.rs:210-295) -/

/-- The floorplan-image scan of `parse_ini` (lib.rs:231-246): take the
first floorplan key starting with `"Floor"`, read the referenced file and
its extension (case as given), then fail when no bytes were collected. -/
def findFloorImage (fs : FS) (floorplan : Sect) : Except String (List Nat × String) :=
  match floorplan.find? (fun kv => strStartsWith kv.1 "Floor") with
  | none => Except.error "no value: FloorX_FILE"
  | some kv => do
    let data ← exceptOfOption (fsRead fs kv.2) "No such file or directory (os error 2)"
    let ext ← exceptOfOption (pathExtension kv.2) "failed to read extension"
    if data.isEmpty then Except.error "no value: FloorX_FILE"
    else pure (data, ext)

/-- One iteration of the `[devices]` loop of `parse_ini` (lib.rs:254-292):
skip keys not starting with `"beacon"`; parse the value as `u32` (the `?`
makes a parse failure abort); skip values other than `1`; look up section
`"beacon <index>"` (index = the key minus its first 6 bytes), which must
exist; skip beacons whose `Hedgehog_mode` is not `"0"`; otherwise read the
fixed position and append the device. -/
def devStep (ini : IniDoc) (devices : List TRDevice) (kv : String × String) :
    Except String (List TRDevice) :=
  if !strStartsWith kv.1 "beacon" then pure devices
  else do
    let n ← exceptOfOption (parse_u32 kv.2) "invalid digit found in string"
    if n ≠ 1 then pure devices
    else do
      let index := kv.1.drop 6
      let beacon ← exceptOfOption (iniSection ini ("beacon " ++ index))
        ("no section: [beacon " ++ index ++ "]")
      let hm ← exceptOfOption (sectGet beacon "Hedgehog_mode") "no value: Hedgehog_mode"
      if hm ≠ "0" then pure devices
      else do
        let pxs ← exceptOfOption (sectGet beacon "Position_X") "no value: Position_X"
        let px ← exceptOfOption (parse_f64 pxs) "invalid float literal"
        let pys ← exceptOfOption (sectGet beacon "Position_Y") "no value: Position_Y"
        let py ← exceptOfOption (parse_f64 pys) "invalid float literal"
        let addr ← exceptOfOption (parse_u8 index) "invalid digit found in string"
        pure (devices ++ [{ address := addr, is_hedge := false, x := px, y := py, q := 0 }])

/-- `parse_ini` (lib.rs:210-295).  `loaded` is the result of
`Ini::load_from_file_noescape(path)?`; `fs` serves the `std::fs::read` of
the floorplan image. -/
def parse_ini (fs : FS) (loaded : Except String IniDoc) :
    Except String (List TRDevice × TRPlan) := do
  let ini ← loaded
  let floorplan ← exceptOfOption (iniSection ini "floorplan") "no section: [floorplan]"
  let xs ← exceptOfOption (sectGet floorplan "shift_x_m") "no value: shift_x_m"
  let x ← exceptOfOption (parse_f64 xs) "invalid float literal"
  let ys ← exceptOfOption (sectGet floorplan "shift_y_m") "no value: shift_y_m"
  let y ← exceptOfOption (parse_f64 ys) "invalid float literal"
  let ss ← exceptOfOption (sectGet floorplan "scale_pixels_per_m") "no value: scale_pixels_per_m"
  let scale ← exceptOfOption (parse_f64 ss) "invalid float literal"
  let img ← findFloorImage fs floorplan
  let trDevices ← exceptOfOption (iniSection ini "devices") "no section: [devices]"
  let devices ← trDevices.foldlM (devStep ini) []
  pure (devices,
    { x := x, y := y, scale_pixels_per_m := scale, data := img.1, ext := img.2 })

/-! ## Tracking loop (`mmrun`, lib.rs:60-148) -/

/-- Seed-time conversion of one discovered device into a `TRDevice`
(lib.rs:69-81): classify hedgehog by type, millimetres to metres by
dividing by 1000, quality from the initial report. -/
def seedDevice (md : MMDevice) : TRDevice :=
  { address := md.address
    is_hedge := md.dtype.is_hedge_type
    x := (md.x : Rat) / 1000
    y := (md.y : Rat) / 1000
    q := md.q }

/-- The seeding loop of `mmrun` (lib.rs:68-84): push one record per
discovered device onto the existing collection. -/
def mmseed (devices : List TRDevice) (mds : List MMDevice) : List TRDevice :=
  mds.foldl (fun acc md => acc ++ [seedDevice md]) devices

/-- The `iter_mut().find(...)` merge of `mmrun` (lib.rs:97-105): overwrite
`x`, `y`, `q` of the first record whose address matches the sample, leave
everything else untouched, never insert. -/
def merge_update (devices : List TRDevice) (md : MMDevice) : List TRDevice :=
  match devices with
  | [] => []
  | td :: rest =>
    if td.address == md.address then
      { td with x := (md.x : Rat) / 1000, y := (md.y : Rat) / 1000, q := md.q } :: rest
    else td :: merge_update rest md

/-- The CSV row written for a logged sample (lib.rs:122-139): raw
millimetre coordinates and quality, timestamp as epoch milliseconds. -/
def logRow (md : MMDevice) : String :=
  toString md.address ++ "," ++ toString md.x ++ "," ++ toString md.y ++ ","
    ++ toString md.z ++ "," ++ toString md.q ++ "," ++ toString md.update_time ++ "\n"

/-- The body of the per-device refresh loop of `mmrun` (lib.rs:95-144) for
one sample: when quality is positive, merge into the registry; then, when
a log handle is present, append the row unless the device is not a
hedgehog or its timestamp is not strictly newer than `prev_time`, and on
append advance `prev_time` to the sample's timestamp.  Returns the new
world and the new `prev_time`. -/
def mmrun_step (w : World) (prev_time : Nat) (md : MMDevice) : World × Nat :=
  if md.q > 0 then
    let st := { w.state with devices := merge_update w.state.devices md }
    if st.savefile then
      if !md.dtype.is_hedge_type then ({ state := st, logfile := w.logfile }, prev_time)
      else if md.update_time ≤ prev_time then ({ state := st, logfile := w.logfile }, prev_time)
      else ({ state := st, logfile := w.logfile ++ [logRow md] }, md.update_time)
    else ({ state := st, logfile := w.logfile }, prev_time)
  else (w, prev_time)

/-- One whole refresh batch (the `for device in device_list.devices()`
loop, lib.rs:95-144): fold `mmrun_step` over the refreshed samples. -/
def mmrun_batch (w : World) (prev_time : Nat) (mds : List MMDevice) : World × Nat :=
  mds.foldl (fun wp md => mmrun_step wp.1 wp.2 md) (w, prev_time)

/-! ## Command surface (lib.rs:150-208) -/

/-- `mmstart` (lib.rs:150-166): under the lock, return when the run flag
is already set, otherwise set it and spawn the loop.  The `Bool` records
whether `spawn` was reached. -/
def mmstart (w : World) : World × Bool :=
  if w.state.is_mmrunning then (w, false)
  else ({ w with state := { w.state with is_mmrunning := true } }, true)

/-- `read_devices` (lib.rs:173-179): a clone of the device collection. -/
def read_devices (w : World) : List TRDevice :=
  w.state.devices

/-- `parse_map` (lib.rs:181-189): run `parse_ini`; on failure emit the
fixed log message and return an empty list with no plan.  The result is
the (unchanged) world, the command's return value, and the emitted log
message when any. -/
def parse_map (w : World) (fs : FS) (loaded : Except String IniDoc) :
    World × (List TRDevice × Option TRPlan) × Option String :=
  match parse_ini fs loaded with
  | Except.ok (devices, plan) => (w, (devices, some plan), none)
  | Except.error _ => (w, ([], none), some "failed to parse ini map file")

/-- `start_record` (lib.rs:191-200): `File::create` truncates `log.csv`,
then the header row is written. -/
def start_record (w : World) : World :=
  { state := { w.state with savefile := true }
    logfile := ["address,x,y,z,q,t\n"] }

/-- `stop_record` (lib.rs:202-208): drop the log handle; the file on disk
keeps its contents. -/
def stop_record (w : World) : World :=
  { w with state := { w.state with savefile := false } }

/-- Every state-touching operation of the program: the five commands plus
the two phases of the tracking loop (`send_log` touches no state and is
the identity). -/
inductive Op where
  | opMmstart
  | opReadDevices
  | opParseMap (fs : FS) (loaded : Except String IniDoc)
  | opStartRecord
  | opStopRecord
  | opSendLog (msg : String)
  | opMmseed (mds : List MMDevice)
  | opMmrunBatch (prev_time : Nat) (mds : List MMDevice)

/-- Effect of each operation on the world. -/
def stepOp (w : World) : Op → World
  | .opMmstart => (mmstart w).1
  | .opReadDevices => w
  | .opParseMap fs loaded => (parse_map w fs loaded).1
  | .opStartRecord => start_record w
  | .opStopRecord => stop_record w
  | .opSendLog _ => w
  | .opMmseed mds => { w with state := { w.state with devices := mmseed w.state.devices mds } }
  | .opMmrunBatch prev_time mds => (mmrun_batch w prev_time mds).1

/-! ## Concrete test fixtures -/

/-- The freshly managed state (lib.rs:313-317) wrapped in a world with an
empty log file. -/
def w0 : World :=
  { state := { is_mmrunning := false, devices := [], savefile := false }, logfile := [] }

/-- A world whose run flag is already set. -/
def wRun : World :=
  { state := { is_mmrunning := true, devices := [], savefile := false }, logfile := [] }

/-- A recording world holding one seeded hedgehog record at address 1. -/
def w1 : World :=
  { state := { is_mmrunning := true
               devices := [{ address := 1, is_hedge := true, x := 0, y := 0, q := 0 }]
               savefile := true }
    logfile := ["address,x,y,z,q,t\n"] }

/-- A quality-50 hedgehog sample for address 1 at 2500 mm / -1000 mm,
hardware time 100 ms. -/
def md1 : MMDevice :=
  { address := 1, dtype := .SuperBeaconHedgedog, x := 2500, y := -1000, z := 0, q := 50
    update_time := 100 }

/-- A quality-50 fixed-beacon sample for address 1, hardware time 200 ms. -/
def mdFixed : MMDevice :=
  { address := 1, dtype := .other 22, x := 4000, y := 0, z := 0, q := 50, update_time := 200 }

/-- A quality-0 discovery sample for address 5 (used to exercise
seeding). -/
def mdDup : MMDevice :=
  { address := 5, dtype := .other 22, x := 0, y := 0, z := 0, q := 0, update_time := 0 }

/-- Filesystem holding the floor image referenced by `ini0`. -/
def fs0 : FS := [("floor.png", [1, 2, 3])]

/-- The well-formed configuration of spec §8: complete floorplan section,
one enabled fixed beacon `1` at (3.5, 4.5). -/
def ini0 : IniDoc :=
  [("floorplan",
     [("shift_x_m", "1.0"), ("shift_y_m", "2.0"), ("scale_pixels_per_m", "10.0"),
      ("Floor1_FILE", "floor.png")]),
   ("devices", [("beacon1", "1")]),
   ("beacon 1", [("Hedgehog_mode", "0"), ("Position_X", "3.5"), ("Position_Y", "4.5")])]

/-- `ini0` with an extra `beacon2` key whose value is not an integer. -/
def ini4 : IniDoc :=
  [("floorplan",
     [("shift_x_m", "1.0"), ("shift_y_m", "2.0"), ("scale_pixels_per_m", "10.0"),
      ("Floor1_FILE", "floor.png")]),
   ("devices", [("beacon1", "1"), ("beacon2", "abc")]),
   ("beacon 1", [("Hedgehog_mode", "0"), ("Position_X", "3.5"), ("Position_Y", "4.5")])]

/-- `ini0` with `scale_pixels_per_m` omitted. -/
def ini5 : IniDoc :=
  [("floorplan",
     [("shift_x_m", "1.0"), ("shift_y_m", "2.0"), ("Floor1_FILE", "floor.png")]),
   ("devices", [("beacon1", "1")]),
   ("beacon 1", [("Hedgehog_mode", "0"), ("Position_X", "3.5"), ("Position_Y", "4.5")])]

/-- A configuration whose devices section holds the bare key `beacon`
(no index suffix) with value `1`, and no `beacon ` section. -/
def ini10 : IniDoc :=
  [("floorplan",
     [("shift_x_m", "1.0"), ("shift_y_m", "2.0"), ("scale_pixels_per_m", "10.0"),
      ("Floor1_FILE", "floor.png")]),
   ("devices", [("beacon", "1")])]

/-- Filesystem holding a floor image whose extension is upper-case. -/
def fs8 : FS := [("img.PNG", [7])]

/-- A well-formed configuration whose floor image path ends in `.PNG`. -/
def ini8 : IniDoc :=
  [("floorplan",
     [("shift_x_m", "0.5"), ("shift_y_m", "0"), ("scale_pixels_per_m", "10"),
      ("Floor1_FILE", "img.PNG")]),
   ("devices", [])]

/-- The successful parse result for `ini0` (extracted for reuse in
closed statements). -/
def parsedOk : List TRDevice × TRPlan :=
  match parse_ini fs0 (Except.ok ini0) with
  | Except.ok r => r
  | Except.error _ => ([], { x := 0, y := 0, scale_pixels_per_m := 0, data := [], ext := "" })

/-- The successful parse result for `ini8`. -/
def parsedOk8 : List TRDevice × TRPlan :=
  match parse_ini fs8 (Except.ok ini8) with
  | Except.ok r => r
  | Except.error _ => ([], { x := 0, y := 0, scale_pixels_per_m := 0, data := [], ext := "" })

/-- The identity of a record that must never change after creation:
its address together with its mobile-tag classification. -/
def devKey (t : TRDevice) : Nat × Bool :=
  (t.address, t.is_hedge)

/-- ASCII lowercasing, the spec's notion of a lowercase extension string
(stated from the spec's words, for comparison against the code's
behaviour). -/
def asciiLower (s : String) : String :=
  String.mk (s.data.map (fun c =>
    if 65 ≤ c.toNat ∧ c.toNat ≤ 90 then Char.ofNat (c.toNat + 32) else c))

/-! ## Helper lemmas -/

/-- Inversion for a successful `Except` bind. -/
theorem bind_ok {α β : Type} (x : Except String α) (f : α → Except String β) (b : β)
    (h : (x >>= f) = Except.ok b) : ∃ a, x = Except.ok a ∧ f a = Except.ok b := by
  cases x with
  | ok a => exact ⟨a, rfl, h⟩
  | error e => cases h

/-- Reduction of a bind on a successful `Except`. -/
theorem ok_bind {α β : Type} (a : α) (f : α → Except String β) :
    (Except.ok a >>= f) = f a := rfl

/-- Reduction of a bind on a failed `Except`. -/
theorem error_bind {α β : Type} (e : String) (f : α → Except String β) :
    ((Except.error e : Except String α) >>= f) = Except.error e := rfl

/-- `pure` in the `Except` monad is `Except.ok`. -/
theorem pure_eq_ok {α : Type} (a : α) : (pure a : Except String α) = Except.ok a := rfl

/-- Inversion for a successful `exceptOfOption`. -/
theorem exceptOfOption_ok {α : Type} {o : Option α} {m : String} {a : α}
    (h : exceptOfOption o m = Except.ok a) : o = some a := by
  cases o with
  | some b => cases h; rfl
  | none => cases h

/-- The devices after one refresh-sample step: merged exactly when the
sample's quality is positive. -/
theorem mmrun_step_devices (w : World) (p : Nat) (d : MMDevice) :
    (mmrun_step w p d).1.state.devices =
      if 0 < d.q then merge_update w.state.devices d else w.state.devices := by
  simp only [mmrun_step]
  split_ifs <;> rfl

/-- One refresh-sample step never touches the run flag or the log
handle. -/
theorem mmrun_step_flags (w : World) (p : Nat) (d : MMDevice) :
    (mmrun_step w p d).1.state.is_mmrunning = w.state.is_mmrunning ∧
      (mmrun_step w p d).1.state.savefile = w.state.savefile := by
  simp only [mmrun_step]
  split_ifs <;> exact ⟨rfl, rfl⟩

/-- A whole refresh batch never touches the run flag. -/
theorem mmrun_batch_running (mds : List MMDevice) (w : World) (p : Nat) :
    (mmrun_batch w p mds).1.state.is_mmrunning = w.state.is_mmrunning := by
  induction mds generalizing w p with
  | nil => rfl
  | cons md rest ih =>
    show (mmrun_batch (mmrun_step w p md).1 (mmrun_step w p md).2 rest).1.state.is_mmrunning = _
    rw [ih, (mmrun_step_flags w p md).1]

/-- `parse_map` never changes the world. -/
theorem parse_map_fst (w : World) (fs : FS) (loaded : Except String IniDoc) :
    (parse_map w fs loaded).1 = w := by
  simp only [parse_map]
  split <;> rfl

/-- Merging a sample never changes any record's address or mobile-tag
classification, and never changes the number of records. -/
theorem merge_update_key (ds : List TRDevice) (d : MMDevice) :
    (merge_update ds d).map devKey = ds.map devKey := by
  induction ds with
  | nil => rfl
  | cons td rest ih =>
    simp only [merge_update]
    split_ifs with h
    · simp [devKey]
    · simp [ih]

/-- Merging a sample whose address matches no record is the identity. -/
theorem merge_update_id (ds : List TRDevice) (d : MMDevice)
    (h : ∀ td ∈ ds, td.address ≠ d.address) : merge_update ds d = ds := by
  induction ds with
  | nil => rfl
  | cons td rest ih =>
    simp only [merge_update]
    have hne : (td.address == d.address) = false := by
      simp [h td (List.mem_cons_self td rest)]
    rw [hne]
    simp only [Bool.false_eq_true, if_false, List.cons.injEq, true_and]
    exact ih (fun u hu => h u (List.mem_cons_of_mem td hu))

/-- Merging overwrites exactly the first record whose address matches:
its coordinates become the sample's millimetre values divided by 1000 and
its quality the sample's; every other record is untouched. -/
theorem merge_update_first (d : MMDevice) (pre : List TRDevice) (td : TRDevice)
    (post : List TRDevice) (hpre : ∀ u ∈ pre, u.address ≠ d.address)
    (htd : td.address = d.address) :
    merge_update (pre ++ td :: post) d =
      pre ++ { td with x := (d.x : Rat) / 1000, y := (d.y : Rat) / 1000, q := d.q } :: post := by
  induction pre with
  | nil =>
    simp only [List.nil_append, merge_update, htd, beq_self_eq_true, if_true]
  | cons u rest ih =>
    simp only [List.cons_append, merge_update]
    have hne : (u.address == d.address) = false := by
      simp [hpre u (List.mem_cons_self u rest)]
    rw [hne]
    simp only [Bool.false_eq_true, if_false, List.cons.injEq, true_and]
    exact ih (fun v hv => hpre v (List.mem_cons_of_mem u hv))

/-- Seeding appends one converted record per discovered device. -/
theorem mmseed_append (mds : List MMDevice) (ds : List TRDevice) :
    mmseed ds mds = ds ++ mds.map seedDevice := by
  induction mds generalizing ds with
  | nil => simp [mmseed]
  | cons md rest ih =>
    show mmseed (ds ++ [seedDevice md]) rest = _
    rw [ih]
    simp

/-- A whole refresh batch never changes any record's address or
mobile-tag classification. -/
theorem mmrun_batch_key (mds : List MMDevice) (w : World) (p : Nat) :
    (mmrun_batch w p mds).1.state.devices.map devKey = w.state.devices.map devKey := by
  induction mds generalizing w p with
  | nil => rfl
  | cons md rest ih =>
    show (mmrun_batch (mmrun_step w p md).1 (mmrun_step w p md).2 rest).1.state.devices.map devKey = _
    rw [ih, mmrun_step_devices]
    split_ifs
    · exact merge_update_key _ _
    · rfl

/-! ## Claim theorems -/

/-- C1 counterexample: on the spec's own well-formed configuration the
load succeeds (a descriptor and a one-device list are returned) yet the
registry's device collection is left exactly as it was — the parsed
record for address 1 is not present, so `parse_map` does not seed the
registry. -/
theorem parse_map_does_not_seed_cex :
    (parse_map w0 fs0 (Except.ok ini0)).1 = w0 ∧
    ((parse_map w0 fs0 (Except.ok ini0)).2.1.1.map devKey) = [(1, false)] ∧
    ((parse_map w0 fs0 (Except.ok ini0)).2.1.2).isSome = true ∧
    w0.state.devices = [] := by
  exact ⟨rfl, rfl, rfl, rfl⟩

/-- C1 (amended): `parse_map` leaves the world — in particular the
registry's device collection and the run flag — untouched on every input,
and on a successful parse returns the parsed device list and descriptor
to the caller with no log message; the registry is never seeded. -/
theorem parse_map_returns_without_seeding :
    (∀ w fs loaded, (parse_map w fs loaded).1 = w) ∧
    (∀ w fs loaded r, parse_ini fs loaded = Except.ok r →
      (parse_map w fs loaded).2 = ((r.1, some r.2), none)) := by
  refine ⟨parse_map_fst, ?_⟩
  intro w fs loaded r h
  simp [parse_map, h]

/-- C1 witness: the amended theorem applied to the spec §8 configuration
on the fresh world. -/
theorem parse_map_returns_without_seeding_witness :
    (parse_map w0 fs0 (Except.ok ini0)).2 = ((parsedOk.1, some parsedOk.2), none) :=
  parse_map_returns_without_seeding.2 w0 fs0 (Except.ok ini0) parsedOk rfl

/-- C4 counterexample: adding the key `beacon2 = abc` (a beacon-prefixed
key whose value is not an integer) to an otherwise well-formed
configuration makes the whole parse fail with the integer-parse error —
the key is not skipped, even though the same file without it parses
successfully. -/
theorem beacon_value_not_integer_cex :
    parse_ini fs0 (Except.ok ini4) = Except.error "invalid digit found in string" ∧
    parse_u32 "abc" = none ∧
    (parse_ini fs0 (Except.ok ini0)).isOk = true := by
  exact ⟨rfl, rfl, rfl⟩

/-- C4 (amended): in the devices section, a beacon-prefixed key whose
value parses as `u32` to an integer other than 1 is skipped and parsing
continues, and a non-beacon key is skipped; but a beacon-prefixed key
whose value does not parse as an integer aborts the parse with an
error. -/
theorem devices_key_value_handling :
    (∀ ini acc k v n, strStartsWith k "beacon" = true → parse_u32 v = some n → n ≠ 1 →
      devStep ini acc (k, v) = Except.ok acc) ∧
    (∀ ini acc k v, strStartsWith k "beacon" = true → parse_u32 v = none →
      devStep ini acc (k, v) = Except.error "invalid digit found in string") ∧
    (∀ ini acc k v, strStartsWith k "beacon" = false →
      devStep ini acc (k, v) = Except.ok acc) := by
  refine ⟨?_, ?_, ?_⟩
  · intro ini acc k v n hk hv hn
    simp [devStep, hk, hv, hn, exceptOfOption, ok_bind, pure_eq_ok]
  · intro ini acc k v hk hv
    simp [devStep, hk, hv, exceptOfOption, error_bind]
  · intro ini acc k v hk
    simp [devStep, hk, pure_eq_ok]

/-- C4 witness: the amended theorem applied to the keys
`beacon9 = 2` (skipped), `beacon2 = abc` (aborts) and `other = 1`
(skipped). -/
theorem devices_key_value_handling_witness :
    devStep ini0 [] ("beacon9", "2") = Except.ok [] ∧
    devStep ini0 [] ("beacon2", "abc") = Except.error "invalid digit found in string" ∧
    devStep ini0 [] ("other", "1") = Except.ok [] :=
  ⟨devices_key_value_handling.1 ini0 [] "beacon9" "2" 2 rfl rfl (by decide),
   devices_key_value_handling.2.1 ini0 [] "beacon2" "abc" rfl rfl,
   devices_key_value_handling.2.2 ini0 [] "other" "1" rfl⟩

/-- C5 counterexample: on the configuration missing
`scale_pixels_per_m` the parse fails with an error naming that field, but
the log message `parse_map` emits is the fixed string
"failed to parse ini map file", which does not contain the field's name
(or any field name) as a substring. -/
theorem parse_map_log_generic_cex :
    parse_ini fs0 (Except.ok ini5) = Except.error "no value: scale_pixels_per_m" ∧
    parse_map w0 fs0 (Except.ok ini5) =
      (w0, ([], none), some "failed to parse ini map file") ∧
    ¬ ("scale_pixels_per_m".data <:+: "failed to parse ini map file".data) := by
  exact ⟨rfl, rfl, by decide⟩

/-- C5 (amended): on every failing parse — any missing or malformed
field, missing section, or load failure — `parse_map` returns an empty
device list and no descriptor, and emits the fixed log message
"failed to parse ini map file" (which does not name the failing
field). -/
theorem parse_map_failure_result :
    ∀ w fs loaded e, parse_ini fs loaded = Except.error e →
      parse_map w fs loaded = (w, ([], none), some "failed to parse ini map file") := by
  intro w fs loaded e h
  simp [parse_map, h]

/-- C5 witness: the amended theorem applied to the configuration missing
`scale_pixels_per_m`. -/
theorem parse_map_failure_result_witness :
    parse_map w0 fs0 (Except.ok ini5) =
      (w0, ([], none), some "failed to parse ini map file") :=
  parse_map_failure_result w0 fs0 (Except.ok ini5) "no value: scale_pixels_per_m" rfl

/-- C7: `start_record` always truncates the log file to exactly the
header row `address,x,y,z,q,t` and installs the sink; `stop_record`
leaves the file's contents in place, so stopping and starting again
leaves a file holding just the header, whatever was recorded before. -/
theorem start_record_truncates_to_header :
    ∀ w, (start_record w).logfile = ["address,x,y,z,q,t\n"] ∧
      (start_record w).state.savefile = true ∧
      (stop_record w).logfile = w.logfile ∧
      (stop_record w).state.savefile = false ∧
      (start_record (stop_record w)).logfile = ["address,x,y,z,q,t\n"] := by
  intro w
  exact ⟨rfl, rfl, rfl, rfl, rfl⟩

/-- C10: the bare devices key `beacon` with value `1` yields the empty
index (`"beacon".drop 6 = ""`), so the parser demands a section literally
named `beacon ` (trailing space); `ini10` has no such section and the
whole parse aborts with the no-section error instead of ignoring the
key. -/
theorem beacon_bare_key_aborts :
    "beacon".drop 6 = "" ∧
    ("beacon " ++ "beacon".drop 6) = "beacon " ∧
    iniSection ini10 ("beacon " ++ "beacon".drop 6) = none ∧
    devStep ini10 [] ("beacon", "1") = Except.error "no section: [beacon ]" ∧
    parse_ini fs0 (Except.ok ini10) = Except.error "no section: [beacon ]" := by
  exact ⟨rfl, rfl, rfl, rfl, rfl⟩

/-- C2: for every refresh sample processed by the tracking loop — when
its quality is 0 the device collection is unchanged; when no record
carries its address the collection is unchanged (updates never create
records); when its quality is positive the collection becomes the merge,
which overwrites exactly the first record with that address, setting its
coordinates to the sample's millimetre values divided by 1000 and its
quality to the sample's, and leaves every other record untouched. -/
theorem mmrun_merge_spec :
    (∀ w p d, d.q = 0 → (mmrun_step w p d).1.state.devices = w.state.devices) ∧
    (∀ w p d, (∀ td ∈ w.state.devices, td.address ≠ d.address) →
      (mmrun_step w p d).1.state.devices = w.state.devices) ∧
    (∀ w p d, 0 < d.q →
      (mmrun_step w p d).1.state.devices = merge_update w.state.devices d) ∧
    (∀ d pre td post, (∀ u ∈ pre, u.address ≠ d.address) → td.address = d.address →
      merge_update (pre ++ td :: post) d =
        pre ++ { td with x := (d.x : Rat) / 1000, y := (d.y : Rat) / 1000, q := d.q } :: post) ∧
    (∀ ds d, (∀ td ∈ ds, td.address ≠ d.address) → merge_update ds d = ds) := by
  refine ⟨?_, ?_, ?_, ?_, merge_update_id⟩
  · intro w p d h
    rw [mmrun_step_devices]
    simp [h]
  · intro w p d h
    rw [mmrun_step_devices]
    split_ifs
    · exact merge_update_id _ _ h
    · rfl
  · intro w p d h
    rw [mmrun_step_devices, if_pos h]
  · intro d pre td post hpre htd
    exact merge_update_first d pre td post hpre htd

/-- C2 witness: the quality-0 case on `mdDup`, the unseeded-address case
(no record has address 5), and the positive-quality merge on `md1`, all
on the seeded world `w1`. -/
theorem mmrun_merge_spec_witness :
    (mmrun_step w1 0 mdDup).1.state.devices = w1.state.devices ∧
    (mmrun_step w1 0 { mdDup with q := 9 }).1.state.devices = w1.state.devices ∧
    (mmrun_step w1 0 md1).1.state.devices = merge_update w1.state.devices md1 :=
  ⟨mmrun_merge_spec.1 w1 0 mdDup rfl,
   mmrun_merge_spec.2.1 w1 0 { mdDup with q := 9 } (by decide),
   mmrun_merge_spec.2.2.1 w1 0 md1 (by decide)⟩

/-- C3: `mmstart` with the run flag already set returns the world
unchanged and spawns nothing; two successive calls spawn the loop at most
once (the second call never spawns); whenever a spawn happens the flag
has been set to true; and no operation of the program — command handler
or tracking-loop phase — ever resets a true run flag to false. -/
theorem mmstart_idempotent_latch :
    (∀ w, w.state.is_mmrunning = true → mmstart w = (w, false)) ∧
    (∀ w, (mmstart (mmstart w).1).2 = false) ∧
    (∀ w, (mmstart w).2 = true → (mmstart w).1.state.is_mmrunning = true) ∧
    (∀ w op, w.state.is_mmrunning = true → (stepOp w op).state.is_mmrunning = true) := by
  refine ⟨?_, ?_, ?_, ?_⟩
  · intro w h
    simp [mmstart, h]
  · intro w
    by_cases h : w.state.is_mmrunning <;> simp [mmstart, h]
  · intro w h
    by_cases hr : w.state.is_mmrunning <;> simp [mmstart, hr] at h ⊢
  · intro w op h
    cases op with
    | opMmstart => simp [stepOp, mmstart, h]
    | opReadDevices => exact h
    | opParseMap fs loaded => rw [stepOp, parse_map_fst]; exact h
    | opStartRecord => exact h
    | opStopRecord => exact h
    | opSendLog msg => exact h
    | opMmseed mds => exact h
    | opMmrunBatch p mds => rw [stepOp, mmrun_batch_running]; exact h

/-- C3 witness: on a world whose flag is set, `mmstart` is a no-op that
spawns nothing, and a stop-record call leaves the flag true. -/
theorem mmstart_idempotent_latch_witness :
    mmstart wRun = (wRun, false) ∧
    (stepOp wRun Op.opStopRecord).state.is_mmrunning = true :=
  ⟨mmstart_idempotent_latch.1 wRun rfl,
   mmstart_idempotent_latch.2.2.2 wRun Op.opStopRecord rfl⟩

/-- C9 counterexample: seeding from a discovered device list that
repeats address 5 pushes both samples, leaving the registry with two
records of the same address — seeding alone does not guarantee
uniqueness. -/
theorem seed_duplicate_address_cex :
    (stepOp w0 (Op.opMmseed [mdDup, mdDup])).state.devices.map (fun t => t.address) = [5, 5] ∧
    ¬ ((stepOp w0 (Op.opMmseed [mdDup, mdDup])).state.devices.map (fun t => t.address)).Nodup := by
  constructor
  · rfl
  · rw [show (stepOp w0 (Op.opMmseed [mdDup, mdDup])).state.devices.map (fun t => t.address)
        = [5, 5] from rfl]
    decide

/-- C9 (amended): no operation ever changes an existing record's address
or mobile-tag classification — merging rewrites only `x`, `y`, `q`, and
every non-seeding operation leaves the address/classification sequence
intact; seeding appends one converted record per discovered device, so it
preserves address uniqueness exactly when the discovered addresses are
pairwise distinct and disjoint from those already present (a duplicated
discovery list does introduce duplicate addresses). -/
theorem registry_key_invariant :
    (∀ ds d, (merge_update ds d).map devKey = ds.map devKey) ∧
    (∀ w op, (∀ mds, op ≠ Op.opMmseed mds) →
      (stepOp w op).state.devices.map devKey = w.state.devices.map devKey) ∧
    (∀ w mds, (stepOp w (Op.opMmseed mds)).state.devices =
      w.state.devices ++ mds.map seedDevice) ∧
    (∀ w mds,
      ((w.state.devices ++ mds.map seedDevice).map (fun t => t.address)).Nodup →
      ((stepOp w (Op.opMmseed mds)).state.devices.map (fun t => t.address)).Nodup) := by
  have hseed : ∀ (w : World) (mds : List MMDevice),
      (stepOp w (Op.opMmseed mds)).state.devices = w.state.devices ++ mds.map seedDevice := by
    intro w mds
    exact mmseed_append mds w.state.devices
  refine ⟨merge_update_key, ?_, hseed, ?_⟩
  · intro w op hop
    cases op with
    | opMmstart => simp only [stepOp, mmstart]; split_ifs <;> rfl
    | opReadDevices => rfl
    | opParseMap fs loaded => rw [stepOp, parse_map_fst]
    | opStartRecord => rfl
    | opStopRecord => rfl
    | opSendLog msg => rfl
    | opMmseed mds => exact absurd rfl (hop mds)
    | opMmrunBatch p mds => rw [stepOp]; exact mmrun_batch_key mds w p
  · intro w mds h
    rw [hseed]
    exact h

/-- C9 witness: a refresh batch on the seeded world preserves the
address/classification sequence, and seeding two distinct addresses onto
the empty registry keeps addresses unique. -/
theorem registry_key_invariant_witness :
    (stepOp w1 (Op.opMmrunBatch 0 [md1, mdFixed])).state.devices.map devKey =
      w1.state.devices.map devKey ∧
    ((stepOp w0 (Op.opMmseed [mdDup, md1])).state.devices.map (fun t => t.address)).Nodup :=
  ⟨registry_key_invariant.2.1 w1 (Op.opMmrunBatch 0 [md1, mdFixed])
      (fun mds h => Op.noConfusion h),
   registry_key_invariant.2.2.2 w0 [mdDup, md1] (by decide)⟩

/-- The explicit form of a refresh-sample step for a positive-quality
hedgehog sample while the log sink is active: the registry is merged, and
the row is appended with the watermark advanced exactly when the sample's
timestamp is strictly newer. -/
theorem mmrun_step_explicit (w : World) (p : Nat) (d : MMDevice)
    (hs : w.state.savefile = true) (hq : 0 < d.q) (hh : d.dtype.is_hedge_type = true) :
    mmrun_step w p d =
      if d.update_time ≤ p then
        ({ state := { w.state with devices := merge_update w.state.devices d },
           logfile := w.logfile }, p)
      else
        ({ state := { w.state with devices := merge_update w.state.devices d },
           logfile := w.logfile ++ [logRow d] }, d.update_time) := by
  simp [mmrun_step, hq, hs, hh]

/-- C6: while the log sink is active, a positive-quality hedgehog sample
is appended to the log and the shared watermark advanced to its timestamp
exactly when that timestamp is strictly newer than the watermark (and
skipped, watermark unchanged, otherwise); a non-hedgehog sample is never
logged; hence two consecutive hedgehog samples with non-increasing
timestamps result in only the first row being written. -/
theorem mmrun_log_watermark :
    (∀ w p d, w.state.savefile = true → 0 < d.q → d.dtype.is_hedge_type = true →
      (p < d.update_time →
        (mmrun_step w p d).1.logfile = w.logfile ++ [logRow d] ∧
        (mmrun_step w p d).2 = d.update_time) ∧
      (d.update_time ≤ p →
        (mmrun_step w p d).1.logfile = w.logfile ∧ (mmrun_step w p d).2 = p)) ∧
    (∀ w p d, d.dtype.is_hedge_type = false →
      (mmrun_step w p d).1.logfile = w.logfile ∧ (mmrun_step w p d).2 = p) ∧
    (∀ w p d1 d2, w.state.savefile = true →
      0 < d1.q → 0 < d2.q → d1.dtype.is_hedge_type = true → d2.dtype.is_hedge_type = true →
      d2.update_time ≤ d1.update_time → p < d1.update_time →
      (mmrun_step (mmrun_step w p d1).1 (mmrun_step w p d1).2 d2).1.logfile =
        w.logfile ++ [logRow d1]) := by
  refine ⟨?_, ?_, ?_⟩
  · intro w p d hs hq hh
    rw [mmrun_step_explicit w p d hs hq hh]
    constructor
    · intro hlt
      rw [if_neg (not_le.mpr hlt)]
      exact ⟨rfl, rfl⟩
    · intro hle
      rw [if_pos hle]
      exact ⟨rfl, rfl⟩
  · intro w p d hh
    simp only [mmrun_step, hh, Bool.not_false, if_true]
    split_ifs <;> exact ⟨rfl, rfl⟩
  · intro w p d1 d2 hs hq1 hq2 hh1 hh2 hts hlt
    have h1 := mmrun_step_explicit w p d1 hs hq1 hh1
    rw [if_neg (not_le.mpr hlt)] at h1
    have hW2log : (mmrun_step w p d1).1.logfile = w.logfile ++ [logRow d1] := by rw [h1]
    have hp2 : (mmrun_step w p d1).2 = d1.update_time := by rw [h1]
    have hsave : (mmrun_step w p d1).1.state.savefile = true := by
      rw [(mmrun_step_flags w p d1).2]
      exact hs
    have h2 := mmrun_step_explicit (mmrun_step w p d1).1 d1.update_time d2 hsave hq2 hh2
    rw [if_pos hts] at h2
    rw [hp2, h2, hW2log]

/-- C6 witness: on the recording world `w1` with watermark 0, the
hedgehog sample `md1` (time 100) is appended and advances the watermark;
replaying it against watermark 100 appends nothing; a fixed-beacon sample
is never logged; and the two-sample run writes only the first row. -/
theorem mmrun_log_watermark_witness :
    ((mmrun_step w1 0 md1).1.logfile = w1.logfile ++ [logRow md1] ∧
      (mmrun_step w1 0 md1).2 = md1.update_time) ∧
    ((mmrun_step w1 100 md1).1.logfile = w1.logfile ∧ (mmrun_step w1 100 md1).2 = 100) ∧
    ((mmrun_step w1 0 mdFixed).1.logfile = w1.logfile ∧ (mmrun_step w1 0 mdFixed).2 = 0) ∧
    (mmrun_step (mmrun_step w1 0 md1).1 (mmrun_step w1 0 md1).2 md1).1.logfile =
      w1.logfile ++ [logRow md1] :=
  ⟨(mmrun_log_watermark.1 w1 0 md1 rfl (by decide) rfl).1 (by decide),
   (mmrun_log_watermark.1 w1 100 md1 rfl (by decide) rfl).2 (by decide),
   mmrun_log_watermark.2.1 w1 0 mdFixed rfl,
   mmrun_log_watermark.2.2 w1 0 md1 md1 rfl (by decide) (by decide) rfl rfl
     (le_refl _) (by decide)⟩

/-- C8 counterexample: the configuration referencing `img.PNG` parses
successfully with descriptor extension `PNG` — the captured extension
keeps its upper-case letters and is not the lowercase string the claim
requires. -/
theorem plan_ext_not_lowercase_cex :
    (parse_ini fs8 (Except.ok ini8)).toOption.map (fun r => r.2.ext) = some "PNG" ∧
    asciiLower "PNG" = "png" ∧
    ("PNG" : String) ≠ "png" ∧
    ("PNG".data.all (fun c => !c.isUpper)) = false := by
  exact ⟨rfl, rfl, by decide, rfl⟩

/-- C8 (amended): the descriptor's extension is the extension of the
referenced floor-image path exactly as it appears in the configuration —
the characters after the path's last dot, with no case normalization:
every successful `findFloorImage` returns `pathExtension` of the first
Floor-key's value, and every successful `parse_ini` takes its `data` and
`ext` fields verbatim from `findFloorImage` on the floorplan section. -/
theorem plan_ext_case_as_given :
    (∀ fs fp r, findFloorImage fs fp = Except.ok r →
      ∃ kv, fp.find? (fun e => strStartsWith e.1 "Floor") = some kv ∧
        fsRead fs kv.2 = some r.1 ∧ pathExtension kv.2 = some r.2) ∧
    (∀ fs ini r, parse_ini fs (Except.ok ini) = Except.ok r →
      ∃ fp img, iniSection ini "floorplan" = some fp ∧
        findFloorImage fs fp = Except.ok img ∧ r.2.data = img.1 ∧ r.2.ext = img.2) := by
  constructor
  · intro fs fp r h
    unfold findFloorImage at h
    split at h
    · cases h
    · rename_i kv hfind
      obtain ⟨data, hdata, h2⟩ := bind_ok _ _ _ h
      obtain ⟨ext, hext, h3⟩ := bind_ok _ _ _ h2
      split at h3
      · cases h3
      · rw [pure_eq_ok] at h3
        cases h3
        exact ⟨kv, hfind, exceptOfOption_ok hdata, exceptOfOption_ok hext⟩
  · intro fs ini r h
    rw [parse_ini, ok_bind] at h
    obtain ⟨fp, hfp, h⟩ := bind_ok _ _ _ h
    obtain ⟨xs, hxs, h⟩ := bind_ok _ _ _ h
    obtain ⟨x, hx, h⟩ := bind_ok _ _ _ h
    obtain ⟨ys, hys, h⟩ := bind_ok _ _ _ h
    obtain ⟨y, hy, h⟩ := bind_ok _ _ _ h
    obtain ⟨ss, hss, h⟩ := bind_ok _ _ _ h
    obtain ⟨scale, hscale, h⟩ := bind_ok _ _ _ h
    obtain ⟨img, himg, h⟩ := bind_ok _ _ _ h
    obtain ⟨trdevs, htrdevs, h⟩ := bind_ok _ _ _ h
    obtain ⟨devices, hdevices, h⟩ := bind_ok _ _ _ h
    rw [pure_eq_ok] at h
    cases h
    exact ⟨fp, img, exceptOfOption_ok hfp, himg, rfl, rfl⟩

/-- C8 witness: the amended theorem applied to the configuration whose
floor image is `img.PNG`: the descriptor's bytes and extension come from
`findFloorImage` on its floorplan section. -/
theorem plan_ext_case_as_given_witness :
    ∃ fp img, iniSection ini8 "floorplan" = some fp ∧
      findFloorImage fs8 fp = Except.ok img ∧
      parsedOk8.2.data = img.1 ∧ parsedOk8.2.ext = img.2 :=
  plan_ext_case_as_given.2 fs8 ini8 parsedOk8 rfl
